import Mathlib

/-!
Shallow embedding of the connection-lifecycle core of a React hook library
for talking to ZMK keyboard firmware:

* `src/useZMKApp.ts` — the `useZMKApp` hook: session state, `connect`,
  `disconnect`, `findSubsystem`, the notification dispatch loop and the
  `onNotification` subscription registries;
* `src/utils.ts` — `withTimeout`;
* `src/ZMKCustomSubsystem.ts` — the sub-channel RPC client `callRPC`.

Modelling conventions:

* JavaScript promises are modelled by their settled outcome (`Settled`),
  paired with a settle time in milliseconds (`TimedPromise`) where timeout
  racing matters.
* Thrown / rejected JavaScript values are modelled by `JsValue`: either an
  `Error` instance carrying a `.message`, or any non-`Error` value (the
  code only ever looks at `instanceof Error` and `.message`).
* External collaborators (the caller-supplied `connectFunction`, the
  `create_rpc_connection` constructor and the `call_rpc` exchanges of the
  `@zmkfirmware/zmk-studio-ts-client` package) are modelled as per-call
  outcome oracles recorded in an environment record.
* JavaScript `Set`s of callback functions are modelled as duplicate-free
  insertion-ordered lists of callback identities (`Nat`); JavaScript
  `Map`s are modelled as insertion-ordered association lists.
-/

set_option autoImplicit false

namespace ZMK

universe u

/-- A JavaScript value as seen by a `catch` block: the code only
distinguishes `Error` instances (from which it reads `.message`) from
everything else. -/
inductive JsValue where
  | error (message : String)
  | nonError
  deriving DecidableEq, Repr

/-- The settled outcome of a JavaScript promise. -/
inductive Settled (α : Type u) where
  | resolved (v : α)
  | rejected (e : JsValue)
  deriving DecidableEq, Repr

/-- A promise together with the time (ms) at which it settles, for
modelling `Promise.race` against a timer. -/
structure TimedPromise (α : Type u) where
  time : Nat
  outcome : Settled α
  deriving DecidableEq, Repr

/-- `withTimeout` from `src/utils.ts`: races `promise` against a timer that
rejects with `new Error(errorMessage)` after `timeoutMs` (default 5000,
default message "Operation timed out").  The operation wins the race when
it settles strictly before the deadline; when both would settle at the
same instant the event-loop order is not specified by the source, and the
model lets the timer win (the claims below only concern the strict
cases). -/
def withTimeout {α : Type u} (promise : TimedPromise α) (timeoutMs : Nat := 5000)
    (errorMessage : String := "Operation timed out") : TimedPromise α :=
  if promise.time < timeoutMs then promise
  else { time := timeoutMs, outcome := Settled.rejected (JsValue.error errorMessage) }

/-- Opaque transport handle produced by the caller-supplied connect
function (`RpcTransport` of the client package). -/
structure RpcTransport where
  id : Nat
  deriving DecidableEq, Repr

/-- Opaque connection handle produced by `create_rpc_connection`
(`RpcConnection` of the client package). -/
structure RpcConnection where
  id : Nat
  deriving DecidableEq, Repr

/-- `GetDeviceInfoResponse` of the client package (opaque payload: the hook
never inspects its fields). -/
structure GetDeviceInfoResponse where
  name : String
  serialNumber : List Nat
  deriving DecidableEq, Repr

/-- One custom-subsystem descriptor as listed by the device. -/
structure Subsystem where
  index : Nat
  identifier : String
  deriving DecidableEq, Repr

/-- `ListCustomSubsystemResponse` of the client package. -/
structure ListCustomSubsystemResponse where
  subsystems : List Subsystem
  deriving DecidableEq, Repr

/-- The `core` part of a `call_rpc` response to `{core: {getDeviceInfo:
true}}`; `getDeviceInfo` may be absent (`undefined`). -/
structure CoreResponse where
  getDeviceInfo : Option GetDeviceInfoResponse
  deriving DecidableEq, Repr

/-- A `call_rpc` response as inspected by `fetchDeviceInfo`
(`response.core?.getDeviceInfo`). -/
structure DeviceInfoRpcResponse where
  core : Option CoreResponse
  deriving DecidableEq, Repr

/-- The `custom` part of a `call_rpc` response to
`{custom: {listCustomSubsystems: {}}}`. -/
structure CustomListResponse where
  listCustomSubsystems : Option ListCustomSubsystemResponse
  deriving DecidableEq, Repr

/-- A `call_rpc` response as inspected by `fetchCustomSubsystems`
(`response.custom?.listCustomSubsystems`). -/
structure SubsystemsRpcResponse where
  custom : Option CustomListResponse
  deriving DecidableEq, Repr

/-- `ZMKAppState` from `src/useZMKApp.ts`. -/
structure ZMKAppState where
  connection : Option RpcConnection
  deviceInfo : Option GetDeviceInfoResponse
  customSubsystems : Option ListCustomSubsystemResponse
  isLoading : Bool
  error : Option String
  deriving DecidableEq, Repr

/-- The initial (disconnected) state passed to `useState`. -/
def disconnectedState : ZMKAppState :=
  { connection := none, deviceInfo := none, customSubsystems := none,
    isLoading := false, error := none }

/-- The message the `catch` block of `connect` extracts from a thrown
value: `error instanceof Error ? error.message : "Unknown connection
error"`. -/
def jsErrorMessage : JsValue → String
  | JsValue.error message => message
  | JsValue.nonError => "Unknown connection error"

/-- `fetchDeviceInfo` from `src/useZMKApp.ts`: awaits the `getDeviceInfo`
exchange under `withTimeout` (default deadline and message), returns
`response.core?.getDeviceInfo || null`, and converts any rejection
(exchange failure or timeout) into `null` after logging. -/
def fetchDeviceInfo (rpc : TimedPromise DeviceInfoRpcResponse) :
    Option GetDeviceInfoResponse :=
  match (withTimeout rpc).outcome with
  | Settled.rejected _ => none
  | Settled.resolved response => response.core.bind (fun c => c.getDeviceInfo)

/-- `fetchCustomSubsystems` from `src/useZMKApp.ts`: awaits the
`listCustomSubsystems` exchange under `withTimeout` (default deadline and
message), returns `response.custom?.listCustomSubsystems || null`, and
converts any rejection into `null` after logging. -/
def fetchCustomSubsystems (rpc : TimedPromise SubsystemsRpcResponse) :
    Option ListCustomSubsystemResponse :=
  match (withTimeout rpc).outcome with
  | Settled.rejected _ => none
  | Settled.resolved response => response.custom.bind (fun c => c.listCustomSubsystems)

/-- The outcomes of the external steps of one `connect` call: the
caller-supplied `connectFunction()` promise, the synchronous
`create_rpc_connection` constructor (which may throw), and the two
`call_rpc` exchanges issued by the fetch helpers. -/
structure ConnectEnv where
  connectFunction : Settled RpcTransport
  createConnection : Except JsValue RpcConnection
  deviceInfoRpc : TimedPromise DeviceInfoRpcResponse
  subsystemsRpc : TimedPromise SubsystemsRpcResponse
  deriving Repr

/-- The `try` block of `connect`: await the transport, build the
connection, fetch device info (throwing `new Error("Failed to get device
information")` when it is `null`), fetch the subsystem list (non-fatal),
and produce the success state written by the final `setState`.  An
`Except.error` is the value the block throws. -/
def connectTry (env : ConnectEnv) : Except JsValue ZMKAppState :=
  match env.connectFunction with
  | Settled.rejected e => Except.error e
  | Settled.resolved _transport =>
    match env.createConnection with
    | Except.error e => Except.error e
    | Except.ok conn =>
      match fetchDeviceInfo env.deviceInfoRpc with
      | none => Except.error (JsValue.error "Failed to get device information")
      | some deviceInfo =>
        Except.ok
          { connection := some conn, deviceInfo := some deviceInfo,
            customSubsystems := fetchCustomSubsystems env.subsystemsRpc,
            isLoading := false, error := none }

/-- `connect` from `src/useZMKApp.ts` as a state transformer on the hook's
`ZMKAppState`: first `setState` marks loading and clears the error, then
the `try` block runs; on success its state is stored wholesale, on any
thrown value the `catch` block stores
`{...prev, isLoading: false, error: message}` over the state current at
that point. -/
def connect (env : ConnectEnv) (prev : ZMKAppState) : ZMKAppState :=
  let loading : ZMKAppState := { prev with isLoading := true, error := none }
  match connectTry env with
  | Except.ok st => st
  | Except.error e =>
    { loading with isLoading := false, error := some (jsErrorMessage e) }

/-- `findSubsystem` from `src/useZMKApp.ts`, as a function of the
`customSubsystems` field it reads: `null` when the list is absent,
otherwise `Array.prototype.find` on `s.identifier === identifier`,
projected to `{index, identifier}`. -/
def findSubsystem (customSubsystems : Option ListCustomSubsystemResponse)
    (identifier : String) : Option Subsystem :=
  match customSubsystems with
  | none => none
  | some list =>
    match list.subsystems.find? (fun s => s.identifier = identifier) with
    | some s => some { index := s.index, identifier := s.identifier }
    | none => none

/-- A core notification payload (opaque to the dispatch logic). -/
structure CoreNotification where
  data : Nat
  deriving DecidableEq, Repr

/-- A keymap notification payload (opaque to the dispatch logic). -/
structure KeymapNotification where
  data : Nat
  deriving DecidableEq, Repr

/-- A custom notification payload; dispatch routes on `subsystemIndex`. -/
structure CustomNotification where
  subsystemIndex : Nat
  payload : List Nat
  deriving DecidableEq, Repr

/-- The `custom` part of a notification envelope
(`value.custom?.customNotification`). -/
structure CustomEnvelope where
  customNotification : Option CustomNotification
  deriving DecidableEq, Repr

/-- One envelope read from `connection.notification_readable`: a tagged
union inspected by `if (value.core) ... else if (value.keymap) ... else if
(value.custom?.customNotification)`. -/
structure NotificationEnvelope where
  core : Option CoreNotification
  keymap : Option KeymapNotification
  custom : Option CustomEnvelope
  deriving DecidableEq, Repr

/-- Callback identity: JavaScript `Set`s of function objects compare
callbacks by reference, modelled by a `Nat` identity token. -/
abbrev CallbackId := Nat

/-- `Set.prototype.add` on an insertion-ordered duplicate-free list. -/
def setAdd (c : CallbackId) (s : List CallbackId) : List CallbackId :=
  if c ∈ s then s else s ++ [c]

/-- `Map.prototype.get` on an insertion-ordered association list. -/
def mapGet : List (Nat × List CallbackId) → Nat → Option (List CallbackId)
  | [], _ => none
  | (k', s) :: rest, k => if k' = k then some s else mapGet rest k

/-- `Map.prototype.set` on an insertion-ordered association list: replace
the entry when the key is present, append a new entry otherwise. -/
def mapSet : List (Nat × List CallbackId) → Nat → List CallbackId →
    List (Nat × List CallbackId)
  | [], k, s => [(k, s)]
  | (k', s') :: rest, k, s =>
    if k' = k then (k, s) :: rest else (k', s') :: mapSet rest k s

/-- `Map.prototype.delete` on an insertion-ordered association list (keys
are unique in a JavaScript `Map`, so at most one entry is removed). -/
def mapDelete : List (Nat × List CallbackId) → Nat → List (Nat × List CallbackId)
  | [], _ => []
  | (k', s') :: rest, k => if k' = k then rest else (k', s') :: mapDelete rest k

/-- The three listener registries held in `notificationCallbacksRef`
(`core` and `keymap` sets) and `customNotificationCallbacksRef` (the
subsystem-index-keyed map). -/
structure Registries where
  core : List CallbackId
  keymap : List CallbackId
  custom : List (Nat × List CallbackId)
  deriving DecidableEq, Repr

/-- The registries right after the hook initialises (and right after
`disconnect` clears them). -/
def emptyRegistries : Registries :=
  { core := [], keymap := [], custom := [] }

/-- Well-formedness maintained by the registry code: the `Set`s hold no
duplicates, the `Map` has unique keys, and — thanks to the eager pruning
in the custom unsubscribe closure — every map entry's set is non-empty. -/
def RegistriesWF (r : Registries) : Prop :=
  r.core.Nodup ∧ r.keymap.Nodup ∧ (r.custom.map Prod.fst).Nodup ∧
    (∀ p ∈ r.custom, p.2.Nodup ∧ p.2 ≠ [])

instance (r : Registries) : Decidable (RegistriesWF r) := by
  unfold RegistriesWF; infer_instance

/-- Every callback registered anywhere in the registries. -/
def allCallbacks (r : Registries) : List CallbackId :=
  r.core ++ r.keymap ++ (r.custom.map Prod.snd).flatten

/-- One `onNotification` argument. -/
inductive NotificationSubscription where
  | core (callback : CallbackId)
  | keymap (callback : CallbackId)
  | custom (subsystemIndex : Nat) (callback : CallbackId)
  deriving DecidableEq, Repr

/-- The callback identity carried by a subscription. -/
def NotificationSubscription.callback : NotificationSubscription → CallbackId
  | NotificationSubscription.core c => c
  | NotificationSubscription.keymap c => c
  | NotificationSubscription.custom _ c => c

/-- The registry effect of `onNotification`: add the callback to the
matching set; for a custom subscription, create the key's set first when
it is missing (`new Set()` followed by `add`). -/
def subscribeReg (s : NotificationSubscription) (r : Registries) : Registries :=
  match s with
  | NotificationSubscription.core c => { r with core := setAdd c r.core }
  | NotificationSubscription.keymap c => { r with keymap := setAdd c r.keymap }
  | NotificationSubscription.custom k c =>
    match mapGet r.custom k with
    | some callbacks => { r with custom := mapSet r.custom k (setAdd c callbacks) }
    | none => { r with custom := mapSet r.custom k (setAdd c []) }

/-- The registry effect of the unsubscribe closure returned by
`onNotification`: delete the callback from the matching set; for a custom
subscription, look the key up again, delete the callback, and prune the
key's entry when its set became empty. -/
def unsubscribeReg (s : NotificationSubscription) (r : Registries) : Registries :=
  match s with
  | NotificationSubscription.core c => { r with core := r.core.erase c }
  | NotificationSubscription.keymap c => { r with keymap := r.keymap.erase c }
  | NotificationSubscription.custom k c =>
    match mapGet r.custom k with
    | none => r
    | some callbacks =>
      let remaining := callbacks.erase c
      if remaining = [] then { r with custom := mapDelete r.custom k }
      else { r with custom := mapSet r.custom k remaining }

/-- The callbacks one envelope is dispatched to, following the
classification order of `processNotifications`: `core` first, then
`keymap`, then `custom?.customNotification` routed through the map by
`subsystemIndex` (no registered set means nobody is called). -/
def dispatchTargets (r : Registries) (v : NotificationEnvelope) : List CallbackId :=
  match v.core with
  | some _ => r.core
  | none =>
    match v.keymap with
    | some _ => r.keymap
    | none =>
      match v.custom.bind (fun c => c.customNotification) with
      | some cn => (mapGet r.custom cn.subsystemIndex).getD []
      | none => []

/-- The mutable state of one hook instance that `disconnect` and the
notification loop touch: the React state, every `AbortController` created
so far (`true` = aborted) with `abortControllerRef.current` as an index
into that list, and the listener registries. -/
structure HookState where
  state : ZMKAppState
  controllers : List Bool
  currentController : Option Nat
  registries : Registries
  deriving DecidableEq, Repr

/-- `disconnect` from `src/useZMKApp.ts`: abort the current controller (if
any) and drop the reference, clear all three registries, and reset the
state to the disconnected defaults. -/
def disconnect (h : HookState) : HookState :=
  let aborted :=
    match h.currentController with
    | some i => { h with controllers := h.controllers.set i true,
                         currentController := none }
    | none => h
  { aborted with registries := emptyRegistries, state := disconnectedState }

/-- One result of `reader.read()` as observed by the notification loop:
an envelope, the done marker, or a rejection. -/
inductive ReadResult where
  | item (v : NotificationEnvelope)
  | done
  | error (e : JsValue)
  deriving DecidableEq, Repr

/-- What one run of `processNotifications` did: the hook state it left
behind, the errors passed to `console.error`, whether
`reader.releaseLock()` ran, the value (if any) the async function would
rethrow to an awaiting caller, and the dispatched deliveries in order. -/
structure NotifResult where
  hook : HookState
  logged : List JsValue
  releasedLock : Bool
  rethrown : Option JsValue
  delivered : List (CallbackId × NotificationEnvelope)
  deriving DecidableEq, Repr

/-- The read/dispatch loop of `processNotifications`, run over the script
of `reader.read()` outcomes while the local abort signal stays untriggered.
An exhausted script models a read still pending (no exit, `finally` not
yet run); `done` breaks out normally; a rejection is caught — logged and
escalated to `disconnect` since the signal is untriggered — and in every
exit case the `finally` block releases the reader, with nothing rethrown
(the `processNotifications()` call site never awaits it). -/
def runNotificationLoop (h : HookState) : List ReadResult → NotifResult
  | [] =>
    { hook := h, logged := [], releasedLock := false, rethrown := none,
      delivered := [] }
  | ReadResult.done :: _ =>
    { hook := h, logged := [], releasedLock := true, rethrown := none,
      delivered := [] }
  | ReadResult.error e :: _ =>
    { hook := disconnect h, logged := [e], releasedLock := true,
      rethrown := none, delivered := [] }
  | ReadResult.item v :: rest =>
    let r := runNotificationLoop h rest
    { r with delivered :=
        ((dispatchTargets h.registries v).map (fun c => (c, v))) ++ r.delivered }

/-- `processNotifications` from the notification effect of
`src/useZMKApp.ts`, with the effect-local abort signal sampled as a fixed
flag for the run: when already aborted the `while` guard fails at once and
`finally` releases the reader; otherwise the read/dispatch loop runs. -/
def processNotifications (aborted : Bool) (stream : List ReadResult)
    (h : HookState) : NotifResult :=
  if aborted then
    { hook := h, logged := [], releasedLock := true, rethrown := none,
      delivered := [] }
  else runNotificationLoop h stream

/-- The request object built by `ZMKCustomSubsystem.callRPC`
(`{custom: {call: {subsystemIndex, payload}}}`). -/
structure CustomCallRequest where
  subsystemIndex : Nat
  payload : List Nat
  deriving DecidableEq, Repr

/-- The inner `call` part of a `call_rpc` response to a custom call;
`payload` may be absent. -/
structure CustomCallResponseBody where
  payload : Option (List Nat)
  deriving DecidableEq, Repr

/-- The `custom` part of a `call_rpc` response to a custom call. -/
structure CustomCallResponse where
  call : Option CustomCallResponseBody
  deriving DecidableEq, Repr

/-- A `call_rpc` response as inspected by `callRPC`
(`response.custom?.call?.payload`). -/
structure CallRpcResponse where
  custom : Option CustomCallResponse
  deriving DecidableEq, Repr

/-- `ZMKCustomSubsystem` from `src/ZMKCustomSubsystem.ts`: a connection
and a bound subsystem index, both fixed at construction. -/
structure ZMKCustomSubsystem where
  connection : RpcConnection
  subsystemIndex : Nat
  deriving DecidableEq, Repr

/-- What one `callRPC` call did: the `call_rpc` exchanges it issued (each
recorded with the connection and request it was addressed with) and the
outcome of the returned promise. -/
structure CallRPCRun where
  requests : List (RpcConnection × CustomCallRequest)
  result : Settled (Option (List Nat))
  deriving DecidableEq, Repr

/-- `ZMKCustomSubsystem.callRPC`: resolve the timeout option
(`options?.timeout ?? 5000`), issue exactly one `call_rpc` exchange
addressed to the bound connection and subsystem index under `withTimeout`
(default message), return `response.custom?.call?.payload || null` on
success, and let a rejection (exchange failure or timeout) propagate
unchanged.  `device` is the outcome oracle for the external `call_rpc`. -/
def ZMKCustomSubsystem.callRPC (s : ZMKCustomSubsystem) (payload : List Nat)
    (timeoutOption : Option Nat)
    (device : RpcConnection → CustomCallRequest → TimedPromise CallRpcResponse) :
    CallRPCRun :=
  let timeout := timeoutOption.getD 5000
  let request : CustomCallRequest :=
    { subsystemIndex := s.subsystemIndex, payload := payload }
  let raced := withTimeout (device s.connection request) timeout
  { requests := [(s.connection, request)],
    result :=
      match raced.outcome with
      | Settled.rejected e => Settled.rejected e
      | Settled.resolved response =>
        Settled.resolved ((response.custom.bind (fun c => c.call)).bind
          (fun c => c.payload)) }

/-- A state left behind by an earlier successful `connect`: a stored
connection and device info. -/
def connectedPrev : ZMKAppState :=
  { connection := some { id := 0 },
    deviceInfo := some { name := "Test Device", serialNumber := [1] },
    customSubsystems := none, isLoading := false, error := none }

/-- A `connect` environment whose device-info exchange rejects, so the
`try` block throws `Error("Failed to get device information")`. -/
def failingEnv : ConnectEnv :=
  { connectFunction := Settled.resolved { id := 0 },
    createConnection := Except.ok { id := 1 },
    deviceInfoRpc :=
      { time := 0, outcome := Settled.rejected (JsValue.error "boom") },
    subsystemsRpc := { time := 0, outcome := Settled.resolved { custom := none } } }

/-- A `connect` environment in which everything succeeds except the
capability-list exchange, which settles only after the 5000 ms default
deadline and therefore times out. -/
def subsystemsTimeoutEnv : ConnectEnv :=
  { connectFunction := Settled.resolved { id := 0 },
    createConnection := Except.ok { id := 1 },
    deviceInfoRpc :=
      { time := 10,
        outcome := Settled.resolved
          { core := some
              { getDeviceInfo := some
                  { name := "Test Device", serialNumber := [1] } } } },
    subsystemsRpc :=
      { time := 6000,
        outcome := Settled.resolved
          { custom := some
              { listCustomSubsystems := some
                  { subsystems := [{ index := 0, identifier := "a" }] } } } } }

/-- A connected hook instance: one live (unaborted) controller and a few
registered listeners. -/
def sampleHookState : HookState :=
  { state := connectedPrev,
    controllers := [false],
    currentController := some 0,
    registries := { core := [1], keymap := [2], custom := [(0, [3])] } }

end ZMK

namespace ZMK

universe u

/-! ## Helper lemmas -/

theorem connectTry_ok_shape (env : ConnectEnv) (st : ZMKAppState)
    (h : connectTry env = Except.ok st) : st.error = none ∧ st.isLoading = false := by
  unfold connectTry at h
  repeat' split at h
  all_goals simp_all
  all_goals (cases h; exact ⟨rfl, rfl⟩)

theorem disconnect_state_eq (h : HookState) : (disconnect h).state = disconnectedState := by
  unfold disconnect
  cases h.currentController <;> rfl

theorem disconnect_registries_eq (h : HookState) :
    (disconnect h).registries = emptyRegistries := by
  unfold disconnect
  cases h.currentController <;> rfl

theorem find?_append_first {α : Type u} (p : α → Bool) (pre : List α) (s : α)
    (post : List α) (hpre : ∀ x ∈ pre, p x = false) (hs : p s = true) :
    (pre ++ s :: post).find? p = some s := by
  induction pre with
  | nil => simp [List.find?, hs]
  | cons a pre ih =>
    have ha : p a = false := hpre a (by simp)
    simp only [List.cons_append, List.find?, ha]
    exact ih (fun x hx => hpre x (by simp [hx]))

theorem mapGet_mapSet_self (m : List (Nat × List CallbackId)) (k : Nat)
    (s : List CallbackId) : mapGet (mapSet m k s) k = some s := by
  induction m with
  | nil => simp [mapSet, mapGet]
  | cons p m ih =>
    obtain ⟨k', s'⟩ := p
    by_cases hk : k' = k
    · simp [mapSet, mapGet, hk]
    · simp [mapSet, mapGet, hk, ih]

theorem mapSet_mapSet (m : List (Nat × List CallbackId)) (k : Nat)
    (s t : List CallbackId) : mapSet (mapSet m k s) k t = mapSet m k t := by
  induction m with
  | nil => simp [mapSet]
  | cons p m ih =>
    obtain ⟨k', s'⟩ := p
    by_cases hk : k' = k
    · simp [mapSet, hk]
    · simp [mapSet, hk, ih]

theorem mapSet_self (m : List (Nat × List CallbackId)) (k : Nat)
    (s : List CallbackId) (h : mapGet m k = some s) : mapSet m k s = m := by
  induction m with
  | nil => simp [mapGet] at h
  | cons p m ih =>
    obtain ⟨k', s'⟩ := p
    by_cases hk : k' = k
    · subst hk
      simp [mapGet] at h
      simp [mapSet, h]
    · simp [mapGet, hk] at h
      simp [mapSet, hk, ih h]

theorem mapSet_absent (m : List (Nat × List CallbackId)) (k : Nat)
    (s : List CallbackId) (h : mapGet m k = none) : mapSet m k s = m ++ [(k, s)] := by
  induction m with
  | nil => simp [mapSet]
  | cons p m ih =>
    obtain ⟨k', s'⟩ := p
    by_cases hk : k' = k
    · simp [mapGet, hk] at h
    · simp [mapGet, hk] at h
      simp [mapSet, hk, ih h]

theorem mapGet_append_absent (m : List (Nat × List CallbackId)) (k : Nat)
    (s : List CallbackId) (h : mapGet m k = none) :
    mapGet (m ++ [(k, s)]) k = some s := by
  induction m with
  | nil => simp [mapGet]
  | cons p m ih =>
    obtain ⟨k', s'⟩ := p
    by_cases hk : k' = k
    · simp [mapGet, hk] at h
    · simp [mapGet, hk] at h
      simp [mapGet, hk, ih h]

theorem mapDelete_append_absent (m : List (Nat × List CallbackId)) (k : Nat)
    (s : List CallbackId) (h : mapGet m k = none) :
    mapDelete (m ++ [(k, s)]) k = m := by
  induction m with
  | nil => simp [mapDelete]
  | cons p m ih =>
    obtain ⟨k', s'⟩ := p
    by_cases hk : k' = k
    · simp [mapGet, hk] at h
    · simp [mapGet, hk] at h
      simp [mapDelete, hk, ih h]

theorem mapGet_mem (m : List (Nat × List CallbackId)) (k : Nat)
    (s : List CallbackId) (h : mapGet m k = some s) : (k, s) ∈ m := by
  induction m with
  | nil => simp [mapGet] at h
  | cons p m ih =>
    obtain ⟨k', s'⟩ := p
    by_cases hk : k' = k
    · subst hk
      simp [mapGet] at h
      simp [h]
    · simp [mapGet, hk] at h
      simp [ih h]

theorem mapGet_none_of_not_mem (m : List (Nat × List CallbackId)) (k : Nat)
    (h : k ∉ m.map Prod.fst) : mapGet m k = none := by
  induction m with
  | nil => rfl
  | cons p m ih =>
    obtain ⟨k', s'⟩ := p
    have h1 : ¬k' = k := fun he => h (by simp [he])
    have h2 : k ∉ m.map Prod.fst := fun hm => h (by simp [hm])
    simp [mapGet, h1, ih h2]

theorem mapGet_mapDelete_self (m : List (Nat × List CallbackId)) (k : Nat)
    (h : (m.map Prod.fst).Nodup) : mapGet (mapDelete m k) k = none := by
  induction m with
  | nil => rfl
  | cons p m ih =>
    obtain ⟨k', s'⟩ := p
    simp at h
    by_cases hk : k' = k
    · subst hk
      simp [mapDelete]
      exact mapGet_none_of_not_mem m k' (by simpa using h.1)
    · simp [mapDelete, hk, mapGet, ih h.2]

theorem erase_append_self (c : CallbackId) (s : List CallbackId) (h : c ∉ s) :
    (s ++ [c]).erase c = s := by
  induction s with
  | nil => simp
  | cons a s ih =>
    have h1 : ¬a = c := fun ha => h (by simp [ha])
    have h2 : c ∉ s := fun hs => h (by simp [hs])
    simp [List.erase_cons, h1, ih h2]

theorem not_mem_erase_self (c : CallbackId) (s : List CallbackId) (h : s.Nodup) :
    c ∉ s.erase c := by
  intro hc
  exact ((h.mem_erase_iff).1 hc).1 rfl

theorem mem_dispatchTargets_allCallbacks (r : Registries) (v : NotificationEnvelope)
    (c : CallbackId) (h : c ∈ dispatchTargets r v) : c ∈ allCallbacks r := by
  unfold dispatchTargets at h
  unfold allCallbacks
  split at h
  · simp [h]
  · split at h
    · simp [h]
    · split at h
      · rename_i cn heq
        rcases hg : mapGet r.custom cn.subsystemIndex with _ | s0
        · rw [hg] at h
          simp at h
        · rw [hg] at h
          simp at h
          have hmem := mapGet_mem r.custom cn.subsystemIndex s0 hg
          have hflat : c ∈ (List.map Prod.snd r.custom).flatten :=
            List.mem_flatten.2 ⟨s0, List.mem_map.2 ⟨(cn.subsystemIndex, s0), hmem, rfl⟩, h⟩
          exact List.mem_append.2 (Or.inr hflat)
      · simp at h

/-! ## Claim theorems -/

/-- C7: `withTimeout` passes through the wrapped operation's own outcome
(resolution or rejection, including already-settled operations) whenever
the operation settles before the deadline, and rejects with
`Error(errorMessage)` — by default `Error("Operation timed out")` after
the default 5000 ms — when the deadline elapses first. -/
theorem withTimeout_behavior {α : Type u} (p : TimedPromise α) (t : Nat)
    (msg : String) :
    (p.time < t → withTimeout p t msg = p) ∧
    (t < p.time → withTimeout p t msg =
      { time := t, outcome := Settled.rejected (JsValue.error msg) }) ∧
    (p.time < 5000 → withTimeout p = p) ∧
    (5000 < p.time → withTimeout p =
      { time := 5000,
        outcome := Settled.rejected (JsValue.error "Operation timed out") }) := by
  refine ⟨fun h => ?_, fun h => ?_, fun h => ?_, fun h => ?_⟩
  · unfold withTimeout; rw [if_pos h]
  · unfold withTimeout; rw [if_neg (by omega)]
  · unfold withTimeout; rw [if_pos h]
  · unfold withTimeout; rw [if_neg (by omega)]

/-- Closed instance of `withTimeout_behavior`: an already-settled
operation wins against a 100 ms deadline, and an operation settling at
7000 ms loses against the defaults. -/
theorem withTimeout_behavior_witness :
    withTimeout ({ time := 0, outcome := Settled.resolved 42 } : TimedPromise Nat)
        100 "m" = { time := 0, outcome := Settled.resolved 42 } ∧
    withTimeout ({ time := 7000, outcome := Settled.resolved 1 } : TimedPromise Nat) =
      { time := 5000,
        outcome := Settled.rejected (JsValue.error "Operation timed out") } :=
  ⟨(withTimeout_behavior { time := 0, outcome := Settled.resolved 42 } 100 "m").1
      (by decide),
   (withTimeout_behavior { time := 7000, outcome := Settled.resolved 1 } 0 "").2.2.2
      (by decide)⟩

/-- C8: `findSubsystem` returns the first entry in fetch order whose
identifier equals the argument exactly (duplicates resolve to the
lowest-position match), and returns `none` when the list is absent (in
particular pre-connection, where the disconnected state holds no list),
when the list is empty, and when no entry matches. -/
theorem findSubsystem_first_match (l : ListCustomSubsystemResponse)
    (identifier : String) :
    findSubsystem none identifier = none ∧
    findSubsystem disconnectedState.customSubsystems identifier = none ∧
    (l.subsystems = [] → findSubsystem (some l) identifier = none) ∧
    ((∀ s ∈ l.subsystems, s.identifier ≠ identifier) →
      findSubsystem (some l) identifier = none) ∧
    (∀ pre s post, l.subsystems = pre ++ s :: post → s.identifier = identifier →
      (∀ s' ∈ pre, s'.identifier ≠ identifier) →
      findSubsystem (some l) identifier =
        some { index := s.index, identifier := s.identifier }) := by
  refine ⟨rfl, rfl, fun h => ?_, fun h => ?_, fun pre s post hl hs hpre => ?_⟩
  · simp only [findSubsystem, h, List.find?]
  · have hnone : l.subsystems.find? (fun s => s.identifier = identifier) = none :=
      List.find?_eq_none.mpr (by
        intro x hx
        simpa using h x hx)
    simp only [findSubsystem, hnone]
  · have hfound := find?_append_first
      (fun x : Subsystem => decide (x.identifier = identifier)) pre s post
      (fun x hx => by simpa using hpre x hx) (by simpa using hs)
    simp only [findSubsystem, hl, hfound]

/-- Closed instance of `findSubsystem_first_match`: with duplicate
identifier "b" at positions 1 and 2, lookup of "b" returns the entry at
position 1, and lookup of "z" returns `none`. -/
theorem findSubsystem_first_match_witness :
    findSubsystem
        (some { subsystems := [{ index := 0, identifier := "a" },
                               { index := 1, identifier := "b" },
                               { index := 2, identifier := "b" }] }) "b" =
      some { index := 1, identifier := "b" } ∧
    findSubsystem
        (some { subsystems := [{ index := 0, identifier := "a" },
                               { index := 1, identifier := "b" },
                               { index := 2, identifier := "b" }] }) "z" = none :=
  ⟨(findSubsystem_first_match
      { subsystems := [{ index := 0, identifier := "a" },
                       { index := 1, identifier := "b" },
                       { index := 2, identifier := "b" }] } "b").2.2.2.2
      [{ index := 0, identifier := "a" }] { index := 1, identifier := "b" }
      [{ index := 2, identifier := "b" }] rfl rfl (by decide),
   (findSubsystem_first_match
      { subsystems := [{ index := 0, identifier := "a" },
                       { index := 1, identifier := "b" },
                       { index := 2, identifier := "b" }] } "z").2.2.2.1
      (by decide)⟩

/-- C2: `connect` never raises: for every environment (including a
rejecting connect function, a throwing connection constructor, and
failing fetch exchanges) and every prior state, the call produces a plain
state — either the success state (with `error` cleared) or a failure
state whose `error` field carries the thrown value's message. -/
theorem connect_never_raises (env : ConnectEnv) (prev : ZMKAppState) :
    (connectTry env = Except.ok (connect env prev) ∧
      (connect env prev).error = none) ∨
    (∃ e, connectTry env = Except.error e ∧
      (connect env prev).error = some (jsErrorMessage e) ∧
      (connect env prev).isLoading = false) := by
  unfold connect
  cases h : connectTry env with
  | ok st =>
    left
    exact ⟨rfl, (connectTry_ok_shape env st h).1⟩
  | error e =>
    right
    exact ⟨e, rfl, rfl, rfl⟩

/-- C1 counterexample: a `connect` whose device-info fetch fails, called
while an earlier connection is still stored, resolves with that stored
connection still present — not with `connection = null` as the claim
requires for every prior state. -/
theorem connect_failure_connection_cex :
    connectTry failingEnv =
      Except.error (JsValue.error "Failed to get device information") ∧
    (connect failingEnv connectedPrev).error =
      some "Failed to get device information" ∧
    (connect failingEnv connectedPrev).isLoading = false ∧
    (connect failingEnv connectedPrev).connection = some { id := 0 } ∧
    (connect failingEnv connectedPrev).connection ≠ none := by
  exact ⟨rfl, rfl, rfl, rfl, by decide⟩

/-- C1 (amended): every failing `connect` resolves with `isLoading`
false and `error` set to the failure's message, while the `connection`,
`deviceInfo` and `customSubsystems` fields keep their prior values — so
`connection` is null after a failed `connect` exactly when it was null
when `connect` was called (as it always is when connecting from the
disconnected state). -/
theorem connect_failure_state (env : ConnectEnv) (prev : ZMKAppState) (e : JsValue)
    (h : connectTry env = Except.error e) :
    connect env prev =
      { connection := prev.connection, deviceInfo := prev.deviceInfo,
        customSubsystems := prev.customSubsystems, isLoading := false,
        error := some (jsErrorMessage e) } := by
  unfold connect
  rw [h]

/-- Closed instance of `connect_failure_state`: a device-info failure
starting from the disconnected state leaves `connection` null with the
error message stored. -/
theorem connect_failure_state_witness :
    connect failingEnv disconnectedState =
      { connection := none, deviceInfo := none, customSubsystems := none,
        isLoading := false, error := some "Failed to get device information" } :=
  connect_failure_state failingEnv disconnectedState
    (JsValue.error "Failed to get device information") rfl

/-- C10: the failure path of `connect` writes only `isLoading` and
`error`: `connection`, `deviceInfo` and `customSubsystems` keep whatever
values they held when the failure was handled, so a connection stored by
an earlier successful `connect` survives a later failed one. -/
theorem connect_failure_frame (env : ConnectEnv) (prev : ZMKAppState) (e : JsValue)
    (h : connectTry env = Except.error e) :
    (connect env prev).connection = prev.connection ∧
    (connect env prev).deviceInfo = prev.deviceInfo ∧
    (connect env prev).customSubsystems = prev.customSubsystems ∧
    (connect env prev).isLoading = false ∧
    (connect env prev).error = some (jsErrorMessage e) := by
  unfold connect
  rw [h]
  exact ⟨rfl, rfl, rfl, rfl, rfl⟩

/-- Closed instance of `connect_failure_frame`: the failing connect keeps
the previously stored connection and device info. -/
theorem connect_failure_frame_witness :
    (connect failingEnv connectedPrev).connection = connectedPrev.connection ∧
    (connect failingEnv connectedPrev).deviceInfo = connectedPrev.deviceInfo ∧
    (connect failingEnv connectedPrev).customSubsystems =
      connectedPrev.customSubsystems ∧
    (connect failingEnv connectedPrev).isLoading = false ∧
    (connect failingEnv connectedPrev).error =
      some (jsErrorMessage (JsValue.error "Failed to get device information")) :=
  connect_failure_frame failingEnv connectedPrev
    (JsValue.error "Failed to get device information") rfl

/-- C4: when the transport opens, the connection is built and the
device-info fetch succeeds but the capability-list fetch fails (rejects,
times out, or carries no list — all the ways `fetchCustomSubsystems`
yields `none`), `connect` resolves connected: the connection and device
info are stored and `customSubsystems` is null, with no error. -/
theorem connect_subsystems_failure_nonfatal (env : ConnectEnv) (prev : ZMKAppState)
    (transport : RpcTransport) (conn : RpcConnection)
    (deviceInfo : GetDeviceInfoResponse)
    (h1 : env.connectFunction = Settled.resolved transport)
    (h2 : env.createConnection = Except.ok conn)
    (h3 : fetchDeviceInfo env.deviceInfoRpc = some deviceInfo)
    (h4 : fetchCustomSubsystems env.subsystemsRpc = none) :
    connect env prev =
      { connection := some conn, deviceInfo := some deviceInfo,
        customSubsystems := none, isLoading := false, error := none } := by
  unfold connect connectTry
  rw [h1, h2, h3, h4]

/-- Closed instance of `connect_subsystems_failure_nonfatal`: the
capability-list exchange times out (settles at 6000 ms against the 5000 ms
default deadline) and `connect` still resolves connected with a null
capability list. -/
theorem connect_subsystems_failure_nonfatal_witness :
    connect subsystemsTimeoutEnv disconnectedState =
      { connection := some { id := 1 },
        deviceInfo := some { name := "Test Device", serialNumber := [1] },
        customSubsystems := none, isLoading := false, error := none } :=
  connect_subsystems_failure_nonfatal subsystemsTimeoutEnv disconnectedState
    { id := 0 } { id := 1 } { name := "Test Device", serialNumber := [1] }
    rfl rfl rfl rfl

/-- C5: `disconnect` never fails and always leaves the disconnected
defaults (all state fields cleared, loading off), empties all three
listener registries, drops and aborts the current controller when one was
held, and is idempotent: a second call yields the same terminal state with
no error. -/
theorem disconnect_behavior (h : HookState) :
    (disconnect h).state = disconnectedState ∧
    (disconnect h).registries = emptyRegistries ∧
    (disconnect h).currentController = none ∧
    (∀ i, h.currentController = some i → i < h.controllers.length →
      (disconnect h).controllers[i]? = some true) ∧
    disconnect (disconnect h) = disconnect h := by
  obtain ⟨st, cs, cc, rg⟩ := h
  refine ⟨disconnect_state_eq _, disconnect_registries_eq _, ?_, ?_, ?_⟩
  · cases cc <;> rfl
  · intro i hi hlen
    cases cc with
    | none => cases hi
    | some j =>
      cases hi
      simpa [disconnect] using List.getElem?_set_self (l := cs) (a := true) hlen
  · cases cc <;> rfl

/-- Closed instance of `disconnect_behavior`: disconnecting a connected
hook instance aborts its controller and a second `disconnect` changes
nothing. -/
theorem disconnect_behavior_witness :
    (disconnect sampleHookState).controllers[0]? = some true ∧
    disconnect (disconnect sampleHookState) = disconnect sampleHookState :=
  ⟨(disconnect_behavior sampleHookState).2.2.2.1 0 rfl (by decide),
   (disconnect_behavior sampleHookState).2.2.2.2⟩

/-- C3: when a notification-stream read rejects while the loop's abort
signal is untriggered, the error is logged, the full `disconnect` runs
(state back to the disconnected defaults, all three registries cleared),
the reader is released, and nothing is rethrown to any caller — whatever
envelopes were dispatched before the failure. -/
theorem notification_error_fatal (h : HookState) (vs : List NotificationEnvelope)
    (e : JsValue) (rest : List ReadResult) :
    (processNotifications false (vs.map ReadResult.item ++ ReadResult.error e :: rest)
        h).hook = disconnect h ∧
    (processNotifications false (vs.map ReadResult.item ++ ReadResult.error e :: rest)
        h).hook.state = disconnectedState ∧
    (processNotifications false (vs.map ReadResult.item ++ ReadResult.error e :: rest)
        h).hook.registries = emptyRegistries ∧
    (processNotifications false (vs.map ReadResult.item ++ ReadResult.error e :: rest)
        h).logged = [e] ∧
    (processNotifications false (vs.map ReadResult.item ++ ReadResult.error e :: rest)
        h).releasedLock = true ∧
    (processNotifications false (vs.map ReadResult.item ++ ReadResult.error e :: rest)
        h).rethrown = none := by
  have key : ∀ ws : List NotificationEnvelope,
      (runNotificationLoop h (ws.map ReadResult.item ++ ReadResult.error e :: rest)).hook
          = disconnect h ∧
      (runNotificationLoop h (ws.map ReadResult.item ++ ReadResult.error e :: rest)).logged
          = [e] ∧
      (runNotificationLoop h (ws.map ReadResult.item ++ ReadResult.error e :: rest)).releasedLock
          = true ∧
      (runNotificationLoop h (ws.map ReadResult.item ++ ReadResult.error e :: rest)).rethrown
          = none := by
    intro ws
    induction ws with
    | nil => exact ⟨rfl, rfl, rfl, rfl⟩
    | cons w ws ih => simpa [runNotificationLoop] using ih
  have hk := key vs
  refine ⟨hk.1, ?_, ?_, hk.2.1, hk.2.2.1, hk.2.2.2⟩
  · rw [show (processNotifications false
        (vs.map ReadResult.item ++ ReadResult.error e :: rest) h).hook = disconnect h
      from hk.1]
    exact disconnect_state_eq h
  · rw [show (processNotifications false
        (vs.map ReadResult.item ++ ReadResult.error e :: rest) h).hook = disconnect h
      from hk.1]
    exact disconnect_registries_eq h

/-- C9: `callRPC` issues exactly one `call_rpc` exchange addressed to its
bound connection and subsystem index, racing it against the default
5000 ms timeout when no timeout option is given; a resolved response
yields `response.custom?.call?.payload || null` (so a payload-less
response yields `null`, not an error), and a rejection — exchange failure
or timeout — propagates to the caller unchanged. -/
theorem callRPC_behavior (s : ZMKCustomSubsystem) (payload : List Nat)
    (device : RpcConnection → CustomCallRequest → TimedPromise CallRpcResponse) :
    (s.callRPC payload none device).requests =
      [(s.connection, { subsystemIndex := s.subsystemIndex, payload := payload })] ∧
    (∀ response,
      (withTimeout (device s.connection
          { subsystemIndex := s.subsystemIndex, payload := payload }) 5000).outcome =
        Settled.resolved response →
      (s.callRPC payload none device).result =
        Settled.resolved ((response.custom.bind (fun c => c.call)).bind
          (fun c => c.payload))) ∧
    (∀ response,
      (withTimeout (device s.connection
          { subsystemIndex := s.subsystemIndex, payload := payload }) 5000).outcome =
        Settled.resolved response →
      (response.custom.bind (fun c => c.call)).bind (fun c => c.payload) = none →
      (s.callRPC payload none device).result = Settled.resolved none) ∧
    (∀ e,
      (withTimeout (device s.connection
          { subsystemIndex := s.subsystemIndex, payload := payload }) 5000).outcome =
        Settled.rejected e →
      (s.callRPC payload none device).result = Settled.rejected e) := by
  refine ⟨rfl, fun response hr => ?_, fun response hr hp => ?_, fun e hr => ?_⟩
  · simp only [ZMKCustomSubsystem.callRPC, Option.getD]
    rw [hr]
  · simp only [ZMKCustomSubsystem.callRPC, Option.getD]
    rw [hr]
    show Settled.resolved ((response.custom.bind (fun c => c.call)).bind
      (fun c => c.payload)) = Settled.resolved none
    rw [hp]
  · simp only [ZMKCustomSubsystem.callRPC, Option.getD]
    rw [hr]

/-- C6: for every subscription, the unsubscribe closure returned by
`onNotification` is idempotent and removes exactly that callback from
exactly the registry entry it was added to — subscribing a fresh callback
and immediately unsubscribing restores the registries exactly, so no
subsequently dispatched envelope reaches it — and for a custom
subscription whose key's set becomes empty on removal, the key's entry is
pruned from the map. -/
theorem onNotification_unsubscribe (s : NotificationSubscription) (r : Registries)
    (v : NotificationEnvelope) (hwf : RegistriesWF r)
    (hfresh : s.callback ∉ allCallbacks r) :
    unsubscribeReg s (subscribeReg s r) = r ∧
    (∀ r2, RegistriesWF r2 →
      unsubscribeReg s (unsubscribeReg s r2) = unsubscribeReg s r2) ∧
    s.callback ∉ dispatchTargets (unsubscribeReg s (subscribeReg s r)) v := by
  have h1 : unsubscribeReg s (subscribeReg s r) = r := by
    obtain ⟨rc, rk, rcu⟩ := r
    cases s with
    | core c =>
      have hc : c ∉ rc := fun hm =>
        hfresh (by simp [allCallbacks, NotificationSubscription.callback, hm])
      simp [subscribeReg, unsubscribeReg, setAdd, hc, erase_append_self c rc hc]
    | keymap c =>
      have hc : c ∉ rk := fun hm =>
        hfresh (by simp [allCallbacks, NotificationSubscription.callback, hm])
      simp [subscribeReg, unsubscribeReg, setAdd, hc, erase_append_self c rk hc]
    | custom k c =>
      have hcs : ∀ s0, mapGet rcu k = some s0 → c ∉ s0 := by
        intro s0 hg hc
        exact hfresh (by
          have hmem := mapGet_mem rcu k s0 hg
          simp only [allCallbacks, NotificationSubscription.callback,
            List.mem_append]
          refine Or.inr (List.mem_flatten.2 ⟨s0, ?_, hc⟩)
          exact List.mem_map.2 ⟨(k, s0), hmem, rfl⟩)
      cases hg : mapGet rcu k with
      | none =>
        have hset : mapSet rcu k (setAdd c []) = rcu ++ [(k, [c])] := by
          simpa [setAdd] using mapSet_absent rcu k [c] hg
        have hget := mapGet_append_absent rcu k [c] hg
        have hdel := mapDelete_append_absent rcu k [c] hg
        simp [subscribeReg, unsubscribeReg, hg, hset, hget, hdel]
      | some s0 =>
        have hc : c ∉ s0 := hcs s0 hg
        have hwf0 := hwf.2.2.2 (k, s0) (mapGet_mem rcu k s0 hg)
        have hne : s0 ≠ [] := hwf0.2
        have hget := mapGet_mapSet_self rcu k (setAdd c s0)
        have herase : (setAdd c s0).erase c = s0 := by
          simpa [setAdd, hc] using erase_append_self c s0 hc
        simp only [subscribeReg, hg, unsubscribeReg, hget, herase]
        rw [if_neg hne, mapSet_mapSet, mapSet_self rcu k s0 hg]
  refine ⟨h1, ?_, ?_⟩
  · intro r2 hwf2
    obtain ⟨rc, rk, rcu⟩ := r2
    cases s with
    | core c =>
      have hnm : c ∉ rc.erase c := not_mem_erase_self c rc hwf2.1
      simp [unsubscribeReg, List.erase_of_not_mem hnm]
    | keymap c =>
      have hnm : c ∉ rk.erase c := not_mem_erase_self c rk hwf2.2.1
      simp [unsubscribeReg, List.erase_of_not_mem hnm]
    | custom k c =>
      cases hg : mapGet rcu k with
      | none => simp [unsubscribeReg, hg]
      | some s0 =>
        have hs0 := hwf2.2.2.2 (k, s0) (mapGet_mem rcu k s0 hg)
        by_cases hrem : s0.erase c = []
        · have hdel : mapGet (mapDelete rcu k) k = none :=
            mapGet_mapDelete_self rcu k hwf2.2.2.1
          simp [unsubscribeReg, hg, hrem, hdel]
        · have hget := mapGet_mapSet_self rcu k (s0.erase c)
          have hnm : c ∉ s0.erase c := not_mem_erase_self c s0 hs0.1
          have herase2 : (s0.erase c).erase c = s0.erase c :=
            List.erase_of_not_mem hnm
          simp [unsubscribeReg, hg, hget, herase2, hrem, mapSet_mapSet]
  · rw [h1]
    intro hmem
    exact hfresh (mem_dispatchTargets_allCallbacks r v _ hmem)

/-- Closed instance of `onNotification_unsubscribe`: a fresh custom
subscription for key 0 with callback 7 round-trips the registries and the
callback receives no subsequently dispatched custom envelope for key 0. -/
theorem onNotification_unsubscribe_witness :
    unsubscribeReg (NotificationSubscription.custom 0 7)
        (subscribeReg (NotificationSubscription.custom 0 7)
          { core := [1], keymap := [2], custom := [(0, [3])] }) =
      { core := [1], keymap := [2], custom := [(0, [3])] } ∧
    (NotificationSubscription.custom 0 7).callback ∉
      dispatchTargets
        (unsubscribeReg (NotificationSubscription.custom 0 7)
          (subscribeReg (NotificationSubscription.custom 0 7)
            { core := [1], keymap := [2], custom := [(0, [3])] }))
        { core := none, keymap := none,
          custom := some
            { customNotification := some
                { subsystemIndex := 0, payload := [1, 2, 3] } } } :=
  ⟨(onNotification_unsubscribe (NotificationSubscription.custom 0 7)
      { core := [1], keymap := [2], custom := [(0, [3])] }
      { core := none, keymap := none,
        custom := some
          { customNotification := some
              { subsystemIndex := 0, payload := [1, 2, 3] } } }
      (by decide) (by decide)).1,
   (onNotification_unsubscribe (NotificationSubscription.custom 0 7)
      { core := [1], keymap := [2], custom := [(0, [3])] }
      { core := none, keymap := none,
        custom := some
          { customNotification := some
              { subsystemIndex := 0, payload := [1, 2, 3] } } }
      (by decide) (by decide)).2.2⟩

/-- Closed instance of `callRPC_behavior`: against a device whose
response only settles at 6000 ms, the default-deadline call records the
one addressed request and rejects with the verbatim timeout error. -/
theorem callRPC_behavior_witness :
    (ZMKCustomSubsystem.callRPC { connection := { id := 5 }, subsystemIndex := 3 }
        [1, 2] none
        (fun _ _ => { time := 6000, outcome := Settled.resolved { custom := none } })).requests =
      [({ id := 5 }, { subsystemIndex := 3, payload := [1, 2] })] ∧
    (ZMKCustomSubsystem.callRPC { connection := { id := 5 }, subsystemIndex := 3 }
        [1, 2] none
        (fun _ _ => { time := 6000, outcome := Settled.resolved { custom := none } })).result =
      Settled.rejected (JsValue.error "Operation timed out") :=
  ⟨(callRPC_behavior { connection := { id := 5 }, subsystemIndex := 3 } [1, 2]
      (fun _ _ => { time := 6000, outcome := Settled.resolved { custom := none } })).1,
   (callRPC_behavior { connection := { id := 5 }, subsystemIndex := 3 } [1, 2]
      (fun _ _ => { time := 6000, outcome := Settled.resolved { custom := none } })).2.2.2
      (JsValue.error "Operation timed out") rfl⟩

end ZMK
